import Mathlib

/-!
Verification of the prior-to-markup serialization engine in
`critter/blocks/priors.py`.

The file embeds the `Prior` pydantic model and its rendering properties as
executable Lean definitions and proves the specified properties about them.
External collaborators (the distribution adapter, the parameter adapter, the
identifier-generation utility and the error classes) are not part of the
source tree; they are modelled from the spec as opaque values exposing
exactly the interface the core consumes.
-/

/-- Models Python `str.startswith(pre)`: the character sequence of `pre` is a
prefix of the character sequence of `s`. -/
def str_startswith (s pre : String) : Bool :=
  pre.data.isPrefixOf s.data

/-- Models Python substring containment (`sub in s`): the character sequence
of `sub` occurs contiguously inside that of `s`. -/
def str_contains (s sub : String) : Bool :=
  s.data.tails.any (fun t => sub.data.isPrefixOf t)

/-- Modelled from the spec: numeric values (entries of `initial`, `intervals`
and the bounds) are Python floats.  The core only ever renders them with
`str(...)` and compares them with `0`, so a float is abstracted by exactly
those two observations: its `str` rendering and whether it equals zero. -/
structure PyFloat where
  render : String
  eqZero : Bool
deriving DecidableEq

/-- Python `float('-inf')`: renders as `-inf`, is not equal to zero. -/
def neg_infinity : PyFloat := { render := "-inf", eqZero := false }

/-- Python `float('inf')`: renders as `inf`, is not equal to zero. -/
def pos_infinity : PyFloat := { render := "inf", eqZero := false }

/-- Modelled from the spec: a distribution adapter
(`critter/blocks/distributions.py` is not under the source tree) exposes a
single capability, rendering a self-contained markup fragment (`.xml`). -/
structure Distribution where
  xml : String
deriving DecidableEq

/-- Modelled from the spec: `get_uuid(short=True)` from `critter/utils.py`
(not under the source tree) returns an identifier string.  The class-body
default expression `f'Prior.{get_uuid(short=True)}'` is evaluated exactly
once, when Python defines the `Prior` class, so for a given program run its
result is a single fixed string; it is therefore modelled as a constant. -/
def get_uuid_short : String := "5f2ab9c1"

/-- The default value of the `id` field of `Prior`, computed once at class
definition time from `get_uuid_short`. -/
def Prior.default_id : String := "Prior." ++ get_uuid_short

/-- The `Prior` entity of `critter/blocks/priors.py` with its nine fields. -/
structure Prior where
  id : String
  distribution : List Distribution
  initial : List PyFloat
  lower : PyFloat
  upper : PyFloat
  dimension : Int
  sliced : Bool
  intervals : List PyFloat
  param_spec : String
deriving DecidableEq

/-- The five identifier role stems accepted by `validate_sliced_id`
(`('origin', 'rho', 'samplingProportion', 'reproductiveNumber',
'becomeUninfectious')`). -/
def sliced_id_whitelist : List String :=
  ["origin", "rho", "samplingProportion", "reproductiveNumber", "becomeUninfectious"]

/-- The message of the `ValidationError` raised by `validate_sliced_id`
(the two adjacent Python string literals concatenated). -/
def sliced_id_error_msg : String :=
  "Cannot create a sliced prior that does not belong to a valid birth-death model prior. " ++
  "Sliced prior model identifier fields must start with one of: " ++
  "origin, rho, samplingProportion, reproductiveNumber, becomeUninfectious"

/-- The `root_validator` `Prior.validate_sliced_id`: if `sliced` is set and
`id` does not start with one of the whitelisted stems, construction fails;
otherwise the field values pass through unchanged. -/
def validate_sliced_id (p : Prior) : Except String Prior :=
  if p.sliced && !(sliced_id_whitelist.any (fun pre => str_startswith p.id pre)) then
    Except.error sliced_id_error_msg
  else
    Except.ok p

/-- Pydantic construction of a `Prior`: field defaults are applied for every
argument the caller omits (`none`), then the root validator runs.
`distribution` and `initial` have no default in the source and are therefore
required arguments. -/
def Prior.make (id? : Option String) (distribution : List Distribution)
    (initial : List PyFloat) (lower? upper? : Option PyFloat)
    (dimension? : Option Int) (sliced? : Option Bool)
    (intervals? : Option (List PyFloat)) (param_spec? : Option String) :
    Except String Prior :=
  validate_sliced_id
    { id := id?.getD Prior.default_id
      distribution := distribution
      initial := initial
      lower := lower?.getD neg_infinity
      upper := upper?.getD pos_infinity
      dimension := dimension?.getD 1
      sliced := sliced?.getD false
      intervals := intervals?.getD []
      param_spec := param_spec?.getD "parameter.RealParameter" }

/-- Message of the Python `IndexError` raised when `[0]` is taken on an
empty list. -/
def index_error_msg : String := "list index out of range"

/-- The fragment the sliced branch of `Prior.xml` appends for the 0-based
index `i` and distribution `d`:
`<prior id="{id}Slice{i+1}" name="distribution" x="@{id}{i+1}">{d.xml}</prior>`. -/
def prior_slice_fragment (id : String) (i : Nat) (d : Distribution) : String :=
  "<prior id=\"" ++ id ++ "Slice" ++ toString (i + 1) ++
  "\" name=\"distribution\" x=\"@" ++ id ++ toString (i + 1) ++ "\">" ++
  d.xml ++ "</prior>"

/-- The `Prior.xml` property.  Unsliced: one fragment built from
`distribution[0]` (an index error when `distribution` is empty).  Sliced: the
per-index fragments accumulated over `enumerate(self.distribution)`. -/
def Prior.xml (p : Prior) : Except String String :=
  if !p.sliced then
    match p.distribution with
    | [] => Except.error index_error_msg
    | d :: _ =>
        Except.ok ("<prior id=\"" ++ p.id ++ "Prior\" name=\"distribution\" x=\"@" ++
          p.id ++ "\">" ++ d.xml ++ "</prior>")
  else
    Except.ok (p.distribution.enum.foldl
      (fun acc x => acc ++ prior_slice_fragment p.id x.1 x.2) "")

/-- The alias property `Prior.xml_prior`. -/
def Prior.xml_prior (p : Prior) : Except String String := p.xml

/-- Modelled from the spec: the parameter adapter of
`critter/blocks/parameters.py` (not under the source tree) is constructed
from identifier, role tag, value text, spec tag, dimension and bounds. -/
structure RealParameter where
  id : String
  name : String
  value : String
  spec : String
  dimension : Int
  lower : PyFloat
  upper : PyFloat
deriving DecidableEq

/-- Modelled from the spec: the parameter adapter renders a state-node
markup fragment from its seven inputs; the exact shape is outside the source
tree, so it is modelled as a single tag carrying all inputs and embedding
the value text. -/
def RealParameter.xml (r : RealParameter) : String :=
  "<parameter id=\"" ++ r.id ++ "\" spec=\"" ++ r.spec ++ "\" name=\"" ++ r.name ++
  "\" dimension=\"" ++ toString r.dimension ++ "\" lower=\"" ++ r.lower.render ++
  "\" upper=\"" ++ r.upper.render ++ "\">" ++ r.value ++ "</parameter>"

/-- The value computed by the first line of `Prior.xml_param`:
`" ".join(str(i) for i in self.initial) if len(self.initial) > 1 else
self.initial[0]` (the value text of the lone element in the second case; an
index error when `initial` is empty). -/
def Prior.param_value (p : Prior) : Except String String :=
  if 1 < p.initial.length then
    Except.ok (String.intercalate " " (p.initial.map PyFloat.render))
  else
    match p.initial with
    | [] => Except.error index_error_msg
    | v :: _ => Except.ok v.render

/-- The `RealParameter` constructed inside `Prior.xml_param`:
`RealParameter(id=self.id, name="stateNode", value=initial,
spec=self.param_spec, dimension=self.dimension, lower=self.lower,
upper=self.upper)`. -/
def Prior.xml_param_parameter (p : Prior) : Except String RealParameter :=
  Except.map
    (fun value =>
      { id := p.id, name := "stateNode", value := value, spec := p.param_spec,
        dimension := p.dimension, lower := p.lower, upper := p.upper })
    p.param_value

/-- The `Prior.xml_param` property: the rendering of the constructed
parameter. -/
def Prior.xml_param (p : Prior) : Except String String :=
  Except.map RealParameter.xml p.xml_param_parameter

/-- The `Prior.xml_logger` property: `<log idref="{id}"/>`. -/
def Prior.xml_logger (p : Prior) : String :=
  "<log idref=\"" ++ p.id ++ "\"/>"

/-- The fragment appended by `Prior.xml_slice_function` for 0-based index
`i`. -/
def slice_function_fragment (id : String) (i : Nat) : String :=
  "<function spec=\"beast.core.util.Slice\" id=\"" ++ id ++ toString (i + 1) ++
  "\" arg=\"@" ++ id ++ "\" index=\"" ++ toString i ++ "\" count=\"1\"/>\n"

/-- The `Prior.xml_slice_function` property: empty for unsliced priors, one
function fragment per distribution index otherwise. -/
def Prior.xml_slice_function (p : Prior) : String :=
  if !p.sliced then ""
  else p.distribution.enum.foldl (fun acc x => acc ++ slice_function_fragment p.id x.1) ""

/-- The message of the `CritterError` raised by
`Prior.xml_slice_rate_change_times` for an unmapped role (the four adjacent
Python string literals concatenated; the third has no trailing space, so the
text runs `and` straight into `becomeUninfectious`). -/
def rate_change_error_msg : String :=
  "Rate change times (slices or intervals) are only defined for: " ++
  "rho and samplingProportion (<samplingRateChangeTimes/>), " ++
  "reproductiveNumber (<birthRateChangeTimes/>) and" ++
  "becomeUninfectious (<deathRateChangeTime/>) priors"

/-- The rate-change-times fragment
`<{tag} spec="beast.core.parameter.RealParameter" value="{intervals}"/>`. -/
def rate_change_fragment (tag ivals : String) : String :=
  "<" ++ tag ++ " spec=\"beast.core.parameter.RealParameter\" value=\"" ++
  ivals ++ "\"/>"

/-- The `Prior.xml_slice_rate_change_times` property: empty for unsliced
priors; otherwise the tag name is chosen from the `id` stem in the source's
branch order, and an unmapped stem raises a `CritterError`. -/
def Prior.xml_slice_rate_change_times (p : Prior) : Except String String :=
  if !p.sliced then Except.ok ""
  else
    let ivals := String.intercalate " " (p.intervals.map PyFloat.render)
    if str_startswith p.id "samplingProportion" then
      Except.ok (rate_change_fragment "samplingRateChangeTimes" ivals)
    else if str_startswith p.id "rho" then
      Except.ok (rate_change_fragment "samplingRateChangeTimes" ivals)
    else if str_startswith p.id "reproductiveNumber" then
      Except.ok (rate_change_fragment "birthRateChangeTimes" ivals)
    else if str_startswith p.id "becomeUninfectious" then
      Except.ok (rate_change_fragment "deathRateChangeTimes" ivals)
    else
      Except.error rate_change_error_msg

/-- The `Prior.xml_slice_logger` property: empty for unsliced priors, one
`<log idref="{id}{i+1}"/>` line per distribution index otherwise. -/
def Prior.xml_slice_logger (p : Prior) : String :=
  if !p.sliced then ""
  else p.distribution.enum.foldl
    (fun acc x => acc ++ ("<log idref=\"" ++ p.id ++ toString (x.1 + 1) ++ "\"/>\n")) ""

/-- Pydantic construction of a `GroupSize`: the subclass pins new defaults
`id = 'bGroupSizes'` and `param_spec = 'parameter.IntegerParameter'` for the
inherited fields; explicit constructor arguments still override them. -/
def GroupSize.make (id? : Option String) (distribution : List Distribution)
    (initial : List PyFloat) (lower? upper? : Option PyFloat)
    (dimension? : Option Int) (sliced? : Option Bool)
    (intervals? : Option (List PyFloat)) (param_spec? : Option String) :
    Except String Prior :=
  Prior.make (some (id?.getD "bGroupSizes")) distribution initial lower? upper?
    dimension? sliced? intervals? (some (param_spec?.getD "parameter.IntegerParameter"))

/-- Pydantic construction of a `SamplingProportionMTBD`: the subclass pins
the default `id = 'samplingProportion'`. -/
def SamplingProportionMTBD.make (id? : Option String) (distribution : List Distribution)
    (initial : List PyFloat) (lower? upper? : Option PyFloat)
    (dimension? : Option Int) (sliced? : Option Bool)
    (intervals? : Option (List PyFloat)) (param_spec? : Option String) :
    Except String Prior :=
  Prior.make (some (id?.getD "samplingProportion")) distribution initial lower? upper?
    dimension? sliced? intervals? param_spec?

/-- The list comprehension inside `SamplingProportionMTBD.get_include_string`:
`['true' if v != 0 else 'false' for v in self.initial]`. -/
def SamplingProportionMTBD.include_list (p : Prior) : List String :=
  p.initial.map (fun v => if v.eqZero = false then "true" else "false")

/-- `SamplingProportionMTBD.get_include_string`: the comprehension joined
with single spaces. -/
def SamplingProportionMTBD.get_include_string (p : Prior) : String :=
  String.intercalate " " (SamplingProportionMTBD.include_list p)

/-- The overriding `SamplingProportionMTBD.xml` property: a single
excludable-prior fragment declaring the boolean inclusion mask and embedding
`distribution[0]` (an index error when `distribution` is empty). -/
def SamplingProportionMTBD.xml (p : Prior) : Except String String :=
  match p.distribution with
  | [] => Except.error index_error_msg
  | d :: _ =>
      Except.ok ("<distribution id=\"" ++ p.id ++
        "Prior\" spec=\"multitypetree.distributions.ExcludablePrior\" x=\"@" ++ p.id ++
        "\"><xInclude id=\"samplingProportionXInclude\" spec=\"parameter.BooleanParameter\" dimension=\"" ++
        toString p.dimension ++ "\">" ++ SamplingProportionMTBD.get_include_string p ++
        "</xInclude>" ++ d.xml ++ "</distribution>")

/-- Claim C3: for every Prior with `sliced = false` and non-empty
distribution, the prior-declaration rendering returns exactly one
`<prior>`-shaped fragment whose identifier is `<id>Prior`, whose target
reference is `@<id>`, and which embeds the rendering of `distribution[0]`
verbatim. -/
theorem claim_C3 :
    ∀ (id : String) (d : Distribution) (rest : List Distribution)
      (init : List PyFloat) (lower upper : PyFloat) (dim : Int)
      (ivs : List PyFloat) (ps : String),
    Prior.xml ⟨id, d :: rest, init, lower, upper, dim, false, ivs, ps⟩ =
      Except.ok ("<prior id=\"" ++ id ++ "Prior\" name=\"distribution\" x=\"@" ++
        id ++ "\">" ++ d.xml ++ "</prior>") := by
  intros
  rfl

/-- Claim C9: for every Prior with `sliced = false`, the three slice-only
renderers return the empty string (for the rate-change-times renderer, a
successful empty result rather than an error). -/
theorem claim_C9 :
    ∀ (id : String) (dist : List Distribution) (init : List PyFloat)
      (lower upper : PyFloat) (dim : Int) (ivs : List PyFloat) (ps : String),
    Prior.xml_slice_function ⟨id, dist, init, lower, upper, dim, false, ivs, ps⟩ = "" ∧
    Prior.xml_slice_rate_change_times ⟨id, dist, init, lower, upper, dim, false, ivs, ps⟩ =
      Except.ok "" ∧
    Prior.xml_slice_logger ⟨id, dist, init, lower, upper, dim, false, ivs, ps⟩ = "" := by
  intros
  exact ⟨rfl, rfl, rfl⟩

/-- Claim C5, counterexample: constructing a Prior with an empty
`distribution` list succeeds — pydantic only checks that the required field
is present and is a list of distributions, not that it is non-empty — so the
claim that such a construction always fails is false. -/
theorem claim_C5_counterexample :
    (Prior.make (some "test") [] [{ render := "1.0", eqZero := false }]
      none none none none none none).isOk = true := by
  rfl

/-- Claim C5, amended: construction with an empty `distribution` succeeds
(no minimum-length validation exists); the invariant only surfaces later,
when the prior-declaration rendering hits the index error at
`distribution[0]`. -/
theorem claim_C5 :
    ∀ (id? : Option String) (init : List PyFloat) (lower? upper? : Option PyFloat)
      (dim? : Option Int) (ivs? : Option (List PyFloat)) (ps? : Option String),
    (Prior.make id? [] init lower? upper? dim? (some false) ivs? ps?).isOk = true ∧
    Except.map Prior.xml (Prior.make id? [] init lower? upper? dim? (some false) ivs? ps?) =
      Except.ok (Except.error index_error_msg) := by
  intros
  exact ⟨rfl, rfl⟩

/-- Claim C7: the parameter rendering passes as value text the space-join of
all `initial` entries when there is more than one, and the lone entry's own
rendering when there is exactly one; in particular `[2.0]` yields `2.0` and
`[1.0, 2.0, 3.0]` yields `1.0 2.0 3.0`. -/
theorem claim_C7 :
    (∀ (id : String) (dist : List Distribution) (v : PyFloat) (rest : List PyFloat)
      (lower upper : PyFloat) (dim : Int) (sl : Bool) (ivs : List PyFloat) (ps : String),
      Except.map RealParameter.value
        (Prior.xml_param_parameter ⟨id, dist, v :: rest, lower, upper, dim, sl, ivs, ps⟩) =
        Except.ok (if rest = [] then v.render
          else String.intercalate " " ((v :: rest).map PyFloat.render))) ∧
    Except.map RealParameter.value
      (Prior.xml_param_parameter ⟨"clockRate", [{ xml := "<d/>" }],
        [{ render := "2.0", eqZero := false }], neg_infinity, pos_infinity, 1, false, [],
        "parameter.RealParameter"⟩) = Except.ok "2.0" ∧
    Except.map RealParameter.value
      (Prior.xml_param_parameter ⟨"clockRate", [{ xml := "<d/>" }],
        [{ render := "1.0", eqZero := false }, { render := "2.0", eqZero := false },
         { render := "3.0", eqZero := false }], neg_infinity, pos_infinity, 3, false, [],
        "parameter.RealParameter"⟩) = Except.ok "1.0 2.0 3.0" := by
  refine ⟨?_, rfl, rfl⟩
  intro id dist v rest lower upper dim sl ivs ps
  cases rest with
  | nil => rfl
  | cons r rs =>
      have h1 : 1 < (v :: r :: rs).length := by
        simp only [List.length_cons]
        omega
      simp [Prior.xml_param_parameter, Prior.param_value, if_pos h1, Except.map]

/-- Claim C2: for every Prior with `sliced = true` and a distribution of
length n, the prior-declaration rendering is exactly the n per-index
fragments (identifier `<id>Slice<k>`, target `@<id><k>`, embedding
`distribution[k-1]`, for k = 1..n) concatenated in index order with no
separator. -/
theorem claim_C2 :
    ∀ (id : String) (dist : List Distribution) (init : List PyFloat)
      (lower upper : PyFloat) (dim : Int) (ivs : List PyFloat) (ps : String),
    Prior.xml ⟨id, dist, init, lower, upper, dim, true, ivs, ps⟩ =
      Except.ok (String.join (dist.enum.map (fun x => prior_slice_fragment id x.1 x.2))) ∧
    (dist.enum.map (fun x => prior_slice_fragment id x.1 x.2)).length = dist.length := by
  intro id dist init lower upper dim ivs ps
  constructor
  · simp [Prior.xml, String.join, List.foldl_map]
  · simp

/-- Claim C4: for every Prior with `sliced = true`, the rate-change-times
rendering yields one fragment whose tag is `samplingRateChangeTimes` when
`id` starts with `rho` or `samplingProportion`, `birthRateChangeTimes` for
`reproductiveNumber`, `deathRateChangeTimes` for `becomeUninfectious`, with
the space-joined intervals as its value; for any other stem (including
`origin`) it fails with a configuration error naming the four valid roles. -/
theorem claim_C4 :
    (∀ (id : String) (dist : List Distribution) (init : List PyFloat)
      (lower upper : PyFloat) (dim : Int) (ivs : List PyFloat) (ps : String),
      Prior.xml_slice_rate_change_times ⟨id, dist, init, lower, upper, dim, true, ivs, ps⟩ =
        (if str_startswith id "rho" || str_startswith id "samplingProportion" then
          Except.ok (rate_change_fragment "samplingRateChangeTimes"
            (String.intercalate " " (ivs.map PyFloat.render)))
        else if str_startswith id "reproductiveNumber" then
          Except.ok (rate_change_fragment "birthRateChangeTimes"
            (String.intercalate " " (ivs.map PyFloat.render)))
        else if str_startswith id "becomeUninfectious" then
          Except.ok (rate_change_fragment "deathRateChangeTimes"
            (String.intercalate " " (ivs.map PyFloat.render)))
        else Except.error rate_change_error_msg)) ∧
    str_contains rate_change_error_msg "rho" = true ∧
    str_contains rate_change_error_msg "samplingProportion" = true ∧
    str_contains rate_change_error_msg "reproductiveNumber" = true ∧
    str_contains rate_change_error_msg "becomeUninfectious" = true := by
  refine ⟨?_, by decide, by decide, by decide, by decide⟩
  intro id dist init lower upper dim ivs ps
  simp only [Prior.xml_slice_rate_change_times]
  cases hsp : str_startswith id "samplingProportion" <;>
    cases hrho : str_startswith id "rho" <;>
      cases hrn : str_startswith id "reproductiveNumber" <;>
        cases hbu : str_startswith id "becomeUninfectious" <;>
          simp [hsp, hrho, hrn, hbu]

/-- Claim C6: for every SamplingProportionMTBD instance (one whose
distribution holds at least one element, as the data model requires), the
overriding prior-declaration rendering is a single excludable-prior fragment
declaring a boolean inclusion mask with one entry per element of `initial`,
each entry `true` exactly when the element is not zero; with
`initial = [0.0, 1.5, 0.0]` the mask renders as `false true false`. -/
theorem claim_C6 :
    (∀ (id : String) (d : Distribution) (rest : List Distribution) (init : List PyFloat)
      (lower upper : PyFloat) (dim : Int) (sl : Bool) (ivs : List PyFloat) (ps : String),
      SamplingProportionMTBD.xml ⟨id, d :: rest, init, lower, upper, dim, sl, ivs, ps⟩ =
        Except.ok ("<distribution id=\"" ++ id ++
          "Prior\" spec=\"multitypetree.distributions.ExcludablePrior\" x=\"@" ++ id ++
          "\"><xInclude id=\"samplingProportionXInclude\" spec=\"parameter.BooleanParameter\" dimension=\"" ++
          toString dim ++ "\">" ++
          SamplingProportionMTBD.get_include_string
            ⟨id, d :: rest, init, lower, upper, dim, sl, ivs, ps⟩ ++
          "</xInclude>" ++ d.xml ++ "</distribution>") ∧
      SamplingProportionMTBD.include_list ⟨id, d :: rest, init, lower, upper, dim, sl, ivs, ps⟩ =
        init.map (fun v => if v.eqZero then "false" else "true") ∧
      (SamplingProportionMTBD.include_list
        ⟨id, d :: rest, init, lower, upper, dim, sl, ivs, ps⟩).length = init.length) ∧
    SamplingProportionMTBD.get_include_string ⟨"samplingProportion", [{ xml := "<d/>" }],
      [{ render := "0.0", eqZero := true }, { render := "1.5", eqZero := false },
       { render := "0.0", eqZero := true }], neg_infinity, pos_infinity, 3, false, [],
      "parameter.RealParameter"⟩ = "false true false" := by
  refine ⟨?_, rfl⟩
  intro id d rest init lower upper dim sl ivs ps
  have hfun : (fun v : PyFloat => if v.eqZero = false then "true" else "false") =
      (fun v : PyFloat => if v.eqZero then "false" else "true") := by
    funext v
    cases h : v.eqZero <;> simp [h]
  refine ⟨rfl, ?_, by simp [SamplingProportionMTBD.include_list]⟩
  simp only [SamplingProportionMTBD.include_list]
  rw [hfun]

/-- Claim C1, counterexample: constructing a sliced Prior with id
`badPrior` fails as claimed, but the configuration error does not identify
the offending id — the message is a fixed string that never mentions it. -/
theorem claim_C1_counterexample :
    Prior.make (some "badPrior") [{ xml := "<d/>" }] [{ render := "1.0", eqZero := false }]
      none none none (some true) none none = Except.error sliced_id_error_msg ∧
    str_contains sliced_id_error_msg "badPrior" = false := by
  exact ⟨rfl, by decide⟩

/-- Claim C1, amended: a sliced Prior whose id does not start with one of
the five whitelisted stems fails construction with a configuration error
naming the allowed stems (but not the offending id); a sliced Prior whose id
does start with one of them passes validation and is constructed. -/
theorem claim_C1 :
    (∀ (id : String) (dist : List Distribution) (init : List PyFloat)
      (lower? upper? : Option PyFloat) (dim? : Option Int)
      (ivs? : Option (List PyFloat)) (ps? : Option String),
      Prior.make (some id) dist init lower? upper? dim? (some true) ivs? ps? =
        (if sliced_id_whitelist.any (fun pre => str_startswith id pre) then
          Except.ok
            { id := id, distribution := dist, initial := init,
              lower := lower?.getD neg_infinity, upper := upper?.getD pos_infinity,
              dimension := dim?.getD 1, sliced := true, intervals := ivs?.getD [],
              param_spec := ps?.getD "parameter.RealParameter" }
        else Except.error sliced_id_error_msg)) ∧
    str_contains sliced_id_error_msg "origin" = true ∧
    str_contains sliced_id_error_msg "rho" = true ∧
    str_contains sliced_id_error_msg "samplingProportion" = true ∧
    str_contains sliced_id_error_msg "reproductiveNumber" = true ∧
    str_contains sliced_id_error_msg "becomeUninfectious" = true := by
  refine ⟨?_, by decide, by decide, by decide, by decide, by decide⟩
  intro id dist init lower? upper? dim? ivs? ps?
  simp only [Prior.make, validate_sliced_id]
  cases h : sliced_id_whitelist.any (fun pre => str_startswith id pre) <;> simp [h]

/-- Claim C8, counterexample: a caller-supplied `param_spec` argument does
override the GroupSize subclass default, so a GroupSize instance does not
always carry the integer-parameter tag. -/
theorem claim_C8_counterexample :
    Except.map Prior.param_spec (GroupSize.make none [{ xml := "<d/>" }]
      [{ render := "1.0", eqZero := false }] none none none none none
      (some "parameter.RealParameter")) = Except.ok "parameter.RealParameter" ∧
    "parameter.RealParameter" ≠ "parameter.IntegerParameter" := by
  exact ⟨rfl, by decide⟩

/-- Claim C8, amended: every GroupSize constructed without an explicit
`param_spec` argument carries `param_spec = parameter.IntegerParameter`; an
explicit constructor argument overrides the subclass default. -/
theorem claim_C8 :
    ∀ (id? : Option String) (dist : List Distribution) (init : List PyFloat)
      (lower? upper? : Option PyFloat) (dim? : Option Int) (sliced? : Option Bool)
      (ivs? : Option (List PyFloat)) (p : Prior),
    GroupSize.make id? dist init lower? upper? dim? sliced? ivs? none = Except.ok p →
    p.param_spec = "parameter.IntegerParameter" := by
  intro id? dist init lower? upper? dim? sliced? ivs? p h
  simp only [GroupSize.make, Prior.make, validate_sliced_id] at h
  split at h
  · cases h
  · injection h with h2
    subst h2
    rfl

/-- Witness for claim C8: a concrete GroupSize constructed without a
`param_spec` argument, on which the theorem yields the integer-parameter
tag. -/
theorem claim_C8_witness :
    GroupSize.make none [{ xml := "<d/>" }] [{ render := "1.0", eqZero := false }]
      none none none none none none =
      Except.ok
        { id := "bGroupSizes", distribution := [{ xml := "<d/>" }],
          initial := [{ render := "1.0", eqZero := false }], lower := neg_infinity,
          upper := pos_infinity, dimension := 1, sliced := false, intervals := [],
          param_spec := "parameter.IntegerParameter" } ∧
    Prior.param_spec
        { id := "bGroupSizes", distribution := [{ xml := "<d/>" }],
          initial := [{ render := "1.0", eqZero := false }], lower := neg_infinity,
          upper := pos_infinity, dimension := 1, sliced := false, intervals := [],
          param_spec := "parameter.IntegerParameter" } = "parameter.IntegerParameter" :=
  ⟨rfl,
    claim_C8 none [{ xml := "<d/>" }] [{ render := "1.0", eqZero := false }]
      none none none none none
      { id := "bGroupSizes", distribution := [{ xml := "<d/>" }],
        initial := [{ render := "1.0", eqZero := false }], lower := neg_infinity,
        upper := pos_infinity, dimension := 1, sliced := false, intervals := [],
        param_spec := "parameter.IntegerParameter" } rfl⟩

/-- Claim C10: the default id of the Prior base class is the class-body
expression evaluated once at class definition time, so any two Priors
constructed without an explicit id argument carry the identical identifier
string. -/
theorem claim_C10 :
    ∀ (dist1 : List Distribution) (init1 : List PyFloat) (lower1? upper1? : Option PyFloat)
      (dim1? : Option Int) (sliced1? : Option Bool) (ivs1? : Option (List PyFloat))
      (ps1? : Option String)
      (dist2 : List Distribution) (init2 : List PyFloat) (lower2? upper2? : Option PyFloat)
      (dim2? : Option Int) (sliced2? : Option Bool) (ivs2? : Option (List PyFloat))
      (ps2? : Option String) (p1 p2 : Prior),
    Prior.make none dist1 init1 lower1? upper1? dim1? sliced1? ivs1? ps1? = Except.ok p1 →
    Prior.make none dist2 init2 lower2? upper2? dim2? sliced2? ivs2? ps2? = Except.ok p2 →
    p1.id = p2.id := by
  intro dist1 init1 lower1? upper1? dim1? sliced1? ivs1? ps1?
  intro dist2 init2 lower2? upper2? dim2? sliced2? ivs2? ps2? p1 p2 h1 h2
  have e1 : p1.id = Prior.default_id := by
    simp only [Prior.make, validate_sliced_id] at h1
    split at h1
    · cases h1
    · injection h1 with h
      subst h
      rfl
  have e2 : p2.id = Prior.default_id := by
    simp only [Prior.make, validate_sliced_id] at h2
    split at h2
    · cases h2
    · injection h2 with h
      subst h
      rfl
  rw [e1, e2]

/-- The first Prior used by the witness of claim C10: constructed without an
explicit id, with field defaults resolved. -/
def c10_prior_a : Prior :=
  { id := Prior.default_id, distribution := [{ xml := "<a/>" }],
    initial := [{ render := "1.0", eqZero := false }], lower := neg_infinity,
    upper := pos_infinity, dimension := 1, sliced := false, intervals := [],
    param_spec := "parameter.RealParameter" }

/-- The second Prior used by the witness of claim C10: different
distribution and initial value, also constructed without an explicit id. -/
def c10_prior_b : Prior :=
  { id := Prior.default_id, distribution := [{ xml := "<b/>" }],
    initial := [{ render := "2.0", eqZero := false }], lower := neg_infinity,
    upper := pos_infinity, dimension := 1, sliced := false, intervals := [],
    param_spec := "parameter.RealParameter" }

/-- Witness for claim C10: two concrete Priors constructed without an id
argument, on which the theorem yields equal identifiers. -/
theorem claim_C10_witness :
    Prior.make none [{ xml := "<a/>" }] [{ render := "1.0", eqZero := false }]
      none none none none none none = Except.ok c10_prior_a ∧
    Prior.make none [{ xml := "<b/>" }] [{ render := "2.0", eqZero := false }]
      none none none none none none = Except.ok c10_prior_b ∧
    c10_prior_a.id = c10_prior_b.id :=
  ⟨rfl, rfl,
    claim_C10 [{ xml := "<a/>" }] [{ render := "1.0", eqZero := false }]
      none none none none none none
      [{ xml := "<b/>" }] [{ render := "2.0", eqZero := false }]
      none none none none none none
      c10_prior_a c10_prior_b rfl rfl⟩
